import Mathlib

/-!
Shallow embedding of the annotation scan of src/annotateFromGFF.py
(function parseGFF together with the final fill loop), and theorems
settling the frozen claims about it.

Modelling conventions: coordinates are Int (Python integers), chromosome
names and gene identifiers are String, the seven location labels written
into the fourth output column are the inductive type Loc. A Python
NameError (reading a local that was never assigned) or KeyError (a
chromosome missing from the size dictionary) aborts the run; the embedding
returns none in those cases. Locals of parseGFF that can be read before
ever being assigned are modelled as Option fields that start as none.
-/

namespace AnnotateFromGFF

/-- The seven location labels the scan writes into the fourth output
column: TSS, Promoter, Intergenic, Intron, CDS, and the two UTR labels. -/
inductive Loc where
  | tss
  | promoter
  | intergenic
  | intron
  | cds
  | utr5
  | utr3
deriving DecidableEq, Repr

/-- Embeds the Python substring test (the string UTR occurring in prev_loc)
over the seven label strings: only the two UTR labels contain it. -/
def Loc.hasUTR : Loc → Bool
  | .utr5 => true
  | .utr3 => true
  | _ => false

/-- One input record as the scan reads it: row[0], row[2], row[3], row[4],
row[6], and the gene identifier extracted from row[8] (extraction itself is
an external collaborator and is assumed to succeed). -/
structure Row where
  chrm : String
  kind : String
  start : Int
  stop : Int
  strand : String
  geneId : String
deriving DecidableEq, Repr

/-- One output record. The five-element lists appended during the scan
carry a gene column (the string "." when not gene associated); the
four-element rows appended by the final fill loop carry none. -/
structure Interval where
  chrm : String
  start : Int
  stop : Int
  loc : Loc
  geneId : Option String
deriving DecidableEq, Repr

/-- The function-level locals of parseGFF that survive from one loop
iteration to the next. An Option field is none while the corresponding
Python local has never been assigned; reading it then is a NameError. -/
structure PState where
  prev_line : String
  prev_chrm : String
  prev_end : Int
  trigger : Bool
  cur_loc : Option Loc
  prev_loc : Option Loc
  prev_gene : Option String
  strand : Option String
  gene : Option String
  istart : Option Int
  iend : Option Int
deriving DecidableEq, Repr

/-- Lines 106-110: the locals before the first iteration. -/
def initState : PState :=
  { prev_line := "", prev_chrm := "", prev_end := 0, trigger := false,
    cur_loc := none, prev_loc := none, prev_gene := none, strand := none,
    gene := none, istart := none, iend := none }

/-- Lookup in the chromosome size dictionary; none models a KeyError. -/
def lookupSize (chrmSizes : List (String × Int)) (c : String) : Option Int :=
  (chrmSizes.find? (fun p => p.1 == c)).map Prod.snd

/-- Intervals appended by one arm of the gene branch together with the last
values that arm assigned to istart, iend and cur_loc. -/
structure Emit where
  out : List Interval
  istart : Int
  iend : Int
  cur_loc : Loc
deriving DecidableEq, Repr

/-- Lines 134-156: two genes head to head with room for both promoters. -/
def headToHeadRoomy (prev_chrm chrm : String) (prev_end start promSize : Int)
    (prev_gene gene : String) : Emit :=
  { out := [
      { chrm := prev_chrm, start := prev_end, stop := prev_end + 1,
        loc := .tss, geneId := some prev_gene },
      { chrm := prev_chrm, start := prev_end + 1, stop := prev_end + 1 + promSize,
        loc := .promoter, geneId := some prev_gene },
      { chrm := chrm, start := prev_end + 1 + promSize + 1, stop := start - 1 - promSize - 1,
        loc := .intergenic, geneId := some "." },
      { chrm := chrm, start := start - 1 - promSize - 1, stop := start - 1,
        loc := .promoter, geneId := some gene },
      { chrm := prev_chrm, start := start, stop := start + 1,
        loc := .tss, geneId := some gene } ],
    istart := start - 1 - promSize - 1, iend := start - 1, cur_loc := .tss }

/-- Lines 157-181: two genes head to head without room for both promoters;
the source repeats the same five appends verbatim. -/
def headToHeadTight (prev_chrm chrm : String) (prev_end start promSize : Int)
    (prev_gene gene : String) : Emit :=
  { out := [
      { chrm := prev_chrm, start := prev_end, stop := prev_end + 1,
        loc := .tss, geneId := some prev_gene },
      { chrm := prev_chrm, start := prev_end + 1, stop := prev_end + 1 + promSize,
        loc := .promoter, geneId := some prev_gene },
      { chrm := chrm, start := prev_end + 1 + promSize + 1, stop := start - 1 - promSize - 1,
        loc := .intergenic, geneId := some "." },
      { chrm := chrm, start := start - 1 - promSize - 1, stop := start - 1,
        loc := .promoter, geneId := some gene },
      { chrm := prev_chrm, start := start, stop := start + 1,
        loc := .tss, geneId := some gene } ],
    istart := start - 1 - promSize - 1, iend := start - 1, cur_loc := .tss }

/-- Lines 190-216 (repeated verbatim at lines 228-255 for the operons-off
path): two reverse genes kept separate; the promoter of the previous gene
takes promSize when the space test passes, else stretches to the next
gene. -/
def revRevSeparate (prev_chrm : String) (prev_end start promSize : Int)
    (prev_gene : String) : Emit :=
  if prev_end + 1 + promSize < start then
    { out := [
        { chrm := prev_chrm, start := prev_end - 1, stop := prev_end,
          loc := .tss, geneId := some prev_gene },
        { chrm := prev_chrm, start := prev_end + 1, stop := prev_end + 1 + promSize,
          loc := .promoter, geneId := some prev_gene },
        { chrm := prev_chrm, start := prev_end + 1 + promSize + 1, stop := start - 1,
          loc := .intergenic, geneId := some "." } ],
      istart := prev_end + 1 + promSize + 1, iend := start - 1, cur_loc := .intergenic }
  else
    { out := [
        { chrm := prev_chrm, start := prev_end - 1, stop := prev_end,
          loc := .tss, geneId := some prev_gene },
        { chrm := prev_chrm, start := prev_end + 1, stop := start - 1,
          loc := .promoter, geneId := some prev_gene } ],
      istart := prev_end + 1, iend := start - 1, cur_loc := .promoter }

/-- Lines 222-226 (same shape at lines 296-302 and 306-311): fill the whole
gap with one Intergenic row on the previous chromosome. -/
def fillIntergenic (prev_chrm : String) (prev_end start : Int) : Emit :=
  { out := [
      { chrm := prev_chrm, start := prev_end + 1, stop := start - 1,
        loc := .intergenic, geneId := some "." } ],
    istart := prev_end + 1, iend := start - 1, cur_loc := .intergenic }

/-- Lines 266-292: a forward gene following a closed boundary on the same
chromosome; promoter of the current gene takes promSize when there is
space, else stretches back to the previous end. -/
def fwdFwdPromoter (prev_chrm chrm : String) (prev_end start promSize : Int)
    (gene : String) : Emit :=
  if start - 1 - promSize > prev_end then
    { out := [
        { chrm := chrm, start := prev_end + 1, stop := start - 1 - promSize,
          loc := .intergenic, geneId := some "." },
        { chrm := chrm, start := start - 1 - promSize, stop := start - 1,
          loc := .promoter, geneId := some gene },
        { chrm := prev_chrm, start := start, stop := start + 1,
          loc := .tss, geneId := some gene } ],
      istart := start - 1 - promSize, iend := start - 1, cur_loc := .tss }
  else
    { out := [
        { chrm := chrm, start := prev_end + 1, stop := start - 1,
          loc := .promoter, geneId := some gene },
        { chrm := prev_chrm, start := start, stop := start + 1,
          loc := .tss, geneId := some gene } ],
      istart := prev_end + 1, iend := start - 1, cur_loc := .tss }

/-- Rows emitted by the close-out code at a chromosome change, plus
whichever of istart, iend, cur_loc that code assigned (none = untouched). -/
structure CloseOut where
  out : List Interval
  istart : Option Int
  iend : Option Int
  cur_loc : Option Loc
deriving DecidableEq, Repr

/-- Lines 316-350: close out the trailing gene (or trailing intergenic
space) of the previous chromosome, bounded by its length from the size
dictionary. -/
def closePrevChrm (chrmSizes : List (String × Int)) (promSize : Int)
    (st : PState) : Option CloseOut :=
  if st.prev_chrm = "" then
    some { out := [], istart := none, iend := none, cur_loc := none }
  else
    match lookupSize chrmSizes st.prev_chrm with
    | none => none
    | some sz =>
      if st.trigger then
        match st.prev_gene with
        | none => none
        | some pg =>
          if st.prev_end + 1 + promSize < sz then
            some { out := [
                     { chrm := st.prev_chrm, start := st.prev_end, stop := st.prev_end + 1,
                       loc := .tss, geneId := some pg },
                     { chrm := st.prev_chrm, start := st.prev_end + 1, stop := st.prev_end + 1 + promSize,
                       loc := .promoter, geneId := some pg },
                     { chrm := st.prev_chrm, start := st.prev_end + 1 + promSize, stop := sz,
                       loc := .intergenic, geneId := some "." } ],
                   istart := some (st.prev_end + 1 + promSize), iend := some sz,
                   cur_loc := some .intergenic }
          else
            if st.prev_end ≠ sz then
              some { out := [
                       { chrm := st.prev_chrm, start := st.prev_end - 1, stop := st.prev_end,
                         loc := .tss, geneId := some pg },
                       { chrm := st.prev_chrm, start := st.prev_end + 1, stop := sz,
                         loc := .promoter, geneId := some pg } ],
                     istart := some (st.prev_end + 1), iend := some sz,
                     cur_loc := some .promoter }
            else
              some { out := [
                       { chrm := st.prev_chrm, start := st.prev_end - 1, stop := st.prev_end,
                         loc := .tss, geneId := some pg } ],
                     istart := none, iend := none, cur_loc := some .tss }
      else
        some { out := [
                 { chrm := st.prev_chrm, start := st.prev_end + 1, stop := sz,
                   loc := .intergenic, geneId := some "." } ],
               istart := some (st.prev_end + 1), iend := some sz,
               cur_loc := some .intergenic }

/-- Full result of the gene branch: rows, the trigger flag, and the final
istart, iend, cur_loc locals (none = still never assigned). -/
structure GeneOut where
  out : List Interval
  trigger : Bool
  istart : Option Int
  iend : Option Int
  cur_loc : Option Loc
deriving DecidableEq, Repr

/-- Lines 352-392: annotate the opening of a new chromosome. With a
forward gene whose start is at most 2, neither the intergenic nor the
promoter append runs, so istart and iend are left unassigned. -/
def newChrmGene (chrm : String) (start promSize : Int) (strand gene : String) :
    GeneOut :=
  if strand = "+" then
    if start - 1 - promSize > 1 then
      if start > 2 then
        { out := [
            { chrm := chrm, start := 1, stop := start - 1 - promSize,
              loc := .intergenic, geneId := some "." },
            { chrm := chrm, start := start - 1 - promSize, stop := start - 1,
              loc := .promoter, geneId := some gene },
            { chrm := chrm, start := start, stop := start + 1,
              loc := .tss, geneId := some gene } ],
          trigger := false, istart := some (start - 1 - promSize),
          iend := some (start - 1), cur_loc := some .tss }
      else
        { out := [
            { chrm := chrm, start := 1, stop := start - 1 - promSize,
              loc := .intergenic, geneId := some "." },
            { chrm := chrm, start := start, stop := start + 1,
              loc := .tss, geneId := some gene } ],
          trigger := false, istart := some 1, iend := some (start - 1 - promSize),
          cur_loc := some .tss }
    else
      if start > 2 then
        { out := [
            { chrm := chrm, start := 1, stop := start - 1,
              loc := .promoter, geneId := some gene },
            { chrm := chrm, start := start, stop := start + 1,
              loc := .tss, geneId := some gene } ],
          trigger := false, istart := some 1, iend := some (start - 1),
          cur_loc := some .tss }
      else
        { out := [
            { chrm := chrm, start := start, stop := start + 1,
              loc := .tss, geneId := some gene } ],
          trigger := false, istart := none, iend := none, cur_loc := some .tss }
  else
    { out := [
        { chrm := chrm, start := 1, stop := start - 1,
          loc := .intergenic, geneId := some "." } ],
      trigger := true, istart := some 1, iend := some (start - 1),
      cur_loc := some .intergenic }

/-- The whole gene branch (lines 124-392): dispatch on chromosome
continuity, the trigger flag and the strand. In the forward, no-trigger,
same-chromosome case with operons on, the test prev_end + operonDist >
start has no else arm in the source, so nothing is appended and the locals
keep their previous values. -/
def geneStep (chrmSizes : List (String × Int)) (promSize : Int) (operons : Bool)
    (operonDist : Int) (st : PState) (chrm : String) (start : Int)
    (strand gene : String) : Option GeneOut :=
  if st.prev_chrm = chrm ∧ st.prev_chrm ≠ "" then
    if st.trigger then
      if strand = "+" then
        match st.prev_gene with
        | none => none
        | some pg =>
          let e := if st.prev_end + 1 + (promSize * 2) + 1 < start then
                     headToHeadRoomy st.prev_chrm chrm st.prev_end start promSize pg gene
                   else
                     headToHeadTight st.prev_chrm chrm st.prev_end start promSize pg gene
          some { out := e.out, trigger := false, istart := some e.istart,
                 iend := some e.iend, cur_loc := some e.cur_loc }
      else
        (if operons then
           if st.prev_end + operonDist > start then
             st.prev_gene.map
               (fun pg => revRevSeparate st.prev_chrm st.prev_end start promSize pg)
           else
             some (fillIntergenic st.prev_chrm st.prev_end start)
         else
           st.prev_gene.map
             (fun pg => revRevSeparate st.prev_chrm st.prev_end start promSize pg)
        ).map (fun e => { out := e.out, trigger := true, istart := some e.istart,
                          iend := some e.iend, cur_loc := some e.cur_loc })
    else
      if strand = "+" then
        if operons then
          if st.prev_end + operonDist > start then
            let e := fwdFwdPromoter st.prev_chrm chrm st.prev_end start promSize gene
            some { out := e.out, trigger := false, istart := some e.istart,
                   iend := some e.iend, cur_loc := some e.cur_loc }
          else
            some { out := [], trigger := false, istart := st.istart,
                   iend := st.iend, cur_loc := st.cur_loc }
        else
          let e := fillIntergenic st.prev_chrm st.prev_end start
          some { out := e.out, trigger := false, istart := some e.istart,
                 iend := some e.iend, cur_loc := some e.cur_loc }
      else
        let e := fillIntergenic st.prev_chrm st.prev_end start
        some { out := e.out, trigger := true, istart := some e.istart,
               iend := some e.iend, cur_loc := some e.cur_loc }
  else
    match closePrevChrm chrmSizes promSize st with
    | none => none
    | some c =>
      let n := newChrmGene chrm start promSize strand gene
      some { out := c.out ++ n.out, trigger := n.trigger,
             istart := (n.istart.orElse fun _ => c.istart.orElse fun _ => st.istart),
             iend := (n.iend.orElse fun _ => c.iend.orElse fun _ => st.iend),
             cur_loc := (n.cur_loc.orElse fun _ => c.cur_loc.orElse fun _ => st.cur_loc) }

/-- One iteration of the scan loop (lines 116-440): the branch on the
record kind, followed by the five assignments every iteration performs
(prev_line, prev_chrm, prev_end, prev_loc, prev_gene). For a gene record,
start and end are first overwritten with istart and iend, a NameError when
those were never assigned. -/
def processRow (chrmSizes : List (String × Int)) (promSize : Int) (operons : Bool)
    (operonDist : Int) (st : PState) (row : Row) :
    Option (PState × List Interval) :=
  let chrm := row.chrm
  let start := row.start
  let cur_line := row.kind
  if cur_line = "gene" then
    let strand := row.strand
    let gene := row.geneId
    match geneStep chrmSizes promSize operons operonDist st chrm start strand gene with
    | none => none
    | some g =>
      match g.istart, g.iend, g.cur_loc with
      | some is, some ie, some cl =>
        some ({ prev_line := cur_line, prev_chrm := chrm, prev_end := ie,
                trigger := g.trigger, cur_loc := some cl, prev_loc := some cl,
                prev_gene := some gene, strand := some strand, gene := some gene,
                istart := some is, iend := some ie }, g.out)
      | _, _, _ => none
  else if cur_line = "mRNA" then
    match st.cur_loc, st.gene with
    | some cl, some g =>
      some ({ st with
                prev_line := cur_line, prev_chrm := chrm, prev_end := row.stop,
                prev_loc := some cl, prev_gene := some g }, [])
    | _, _ => none
  else if cur_line = "CDS" then
    match st.prev_loc, st.gene with
    | some pl, some g =>
      let intron : Option Interval :=
        if (pl = Loc.cds ∧ st.prev_end + 1 ≠ start) ∨
           (pl.hasUTR = true ∧ st.prev_end + 1 ≠ start) then
          some { chrm := chrm, start := st.prev_end + 1,
                 stop := if start - 1 > st.prev_end + 1 then start - 1 else st.prev_end + 1,
                 loc := .intron, geneId := some g }
        else none
      match intron with
      | some iv =>
        some ({ st with
                  prev_line := cur_line, prev_chrm := chrm, prev_end := row.stop,
                  cur_loc := some .cds, prev_loc := some .cds, prev_gene := some g,
                  istart := some iv.start, iend := some iv.stop },
              [iv, { chrm := chrm, start := start, stop := row.stop,
                     loc := .cds, geneId := some g }])
      | none =>
        some ({ st with
                  prev_line := cur_line, prev_chrm := chrm, prev_end := row.stop,
                  cur_loc := some .cds, prev_loc := some .cds, prev_gene := some g },
              [{ chrm := chrm, start := start, stop := row.stop,
                 loc := .cds, geneId := some g }])
    | _, _ => none
  else if cur_line = "UTR" then
    match st.prev_loc, st.strand, st.gene with
    | some pl, some sd, some g =>
      let intron : Option Interval :=
        if (pl = Loc.cds ∧ st.prev_end + 1 ≠ start) ∨
           (pl.hasUTR = true ∧ st.prev_end + 1 ≠ start) then
          some { chrm := chrm, start := st.prev_end + 1, stop := start - 1,
                 loc := .intron, geneId := some g }
        else none
      let label : Option Loc :=
        if (sd = "+" ∧ pl = Loc.tss) ∨
           (sd = "-" ∧ (pl = Loc.cds ∨ pl.hasUTR = true)) then
          some Loc.utr5
        else if (sd = "-" ∧ (pl = Loc.intergenic ∨ pl = Loc.utr3)) ∨
                (sd = "+" ∧ pl = Loc.cds) then
          some Loc.utr3
        else none
      let outIntron : List Interval := match intron with
        | some iv => [iv]
        | none => []
      let outLabel : List Interval := match label with
        | some l => [{ chrm := chrm, start := start, stop := row.stop,
                       loc := l, geneId := some g }]
        | none => []
      match (label.orElse fun _ => intron.map fun _ => Loc.intron).orElse
              fun _ => st.cur_loc with
      | none => none
      | some cl =>
        some ({ st with
                  prev_line := cur_line, prev_chrm := chrm, prev_end := row.stop,
                  cur_loc := some cl, prev_loc := some cl, prev_gene := some g,
                  istart := ((intron.map Interval.start).orElse fun _ => st.istart),
                  iend := ((intron.map Interval.stop).orElse fun _ => st.iend) },
              outIntron ++ outLabel)
    | _, _, _ => none
  else
    match st.cur_loc, st.gene with
    | some cl, some g =>
      some ({ st with
                prev_line := cur_line, prev_chrm := chrm, prev_end := row.stop,
                prev_loc := some cl, prev_gene := some g }, [])
    | _, _ => none

/-- The scan loop over the whole record list, accumulating emitted rows in
order. -/
def processRows (chrmSizes : List (String × Int)) (promSize : Int) (operons : Bool)
    (operonDist : Int) : PState → List Row → Option (PState × List Interval)
  | st, [] => some (st, [])
  | st, r :: rs =>
    match processRow chrmSizes promSize operons operonDist st r with
    | none => none
    | some (st2, out1) =>
      match processRows chrmSizes promSize operons operonDist st2 rs with
      | none => none
      | some (st3, out2) => some (st3, out1 ++ out2)

/-- parseGFF (lines 95-449): run the scan, then the final fill loop. The
source builds the set of all chromosome names and calls difference() on it
with no argument, which returns the whole set (the set of chromosomes seen
in the output is computed but never used), so a four-element full-length
Intergenic row is appended for every chromosome of the size dictionary. -/
def parseGFF (rows : List Row) (chrmSizes : List (String × Int))
    (promSize : Int) (operons : Bool) (operonDist : Int) :
    Option (List Interval) :=
  match processRows chrmSizes promSize operons operonDist initState rows with
  | none => none
  | some (_, out) =>
    some (out ++ chrmSizes.map (fun p =>
      { chrm := p.1, start := 1, stop := p.2, loc := Loc.intergenic, geneId := none }))

/-! Concrete inputs used by the theorems below. -/

/-- Size registry of the worked example: one chromosome of length 1000. -/
def sizesWorked : List (String × Int) := [("chr1", 1000)]

/-- Records of the worked example: one forward gene G1 at [400,600] and one
CDS at [400,600]. -/
def rowsWorked : List Row :=
  [ { chrm := "chr1", kind := "gene", start := 400, stop := 600, strand := "+", geneId := "G1" },
    { chrm := "chr1", kind := "CDS", start := 400, stop := 600, strand := "+", geneId := "G1" } ]

/-- What the program actually emits on the worked example with
promoterSize 300, operons on, operonDistance 60. -/
def outWorked : List Interval :=
  [ { chrm := "chr1", start := 1, stop := 99, loc := .intergenic, geneId := some "." },
    { chrm := "chr1", start := 99, stop := 399, loc := .promoter, geneId := some "G1" },
    { chrm := "chr1", start := 400, stop := 401, loc := .tss, geneId := some "G1" },
    { chrm := "chr1", start := 400, stop := 600, loc := .cds, geneId := some "G1" },
    { chrm := "chr1", start := 1, stop := 1000, loc := .intergenic, geneId := none } ]

/-- Two reverse genes whose gap is well under operonDistance 60: the gene
bodies are [100,120] and [130,260] (gap 10), and even the scanned anchor
distance start - prev_end is 130 - 99 = 31. -/
def rowsRevNear : List Row :=
  [ { chrm := "chr1", kind := "gene", start := 100, stop := 120, strand := "-", geneId := "GA" },
    { chrm := "chr1", kind := "gene", start := 130, stop := 260, strand := "-", geneId := "GB" } ]

/-- Two reverse genes far apart: bodies [100,120] and [600,700], every gap
measure far above operonDistance 60. -/
def rowsRevFar : List Row :=
  [ { chrm := "chr1", kind := "gene", start := 100, stop := 120, strand := "-", geneId := "GA" },
    { chrm := "chr1", kind := "gene", start := 600, stop := 700, strand := "-", geneId := "GB" } ]

/-- A reverse gene followed closely by a forward gene: the head-to-head
case with far less room than two promoters need. -/
def rowsHeadTight : List Row :=
  [ { chrm := "chr1", kind := "gene", start := 100, stop := 200, strand := "-", geneId := "GA" },
    { chrm := "chr1", kind := "gene", start := 150, stop := 300, strand := "+", geneId := "GB" } ]

/-- A forward gene with two overlapping CDS records: the second CDS starts
at 420, before the first one ends at 450. -/
def rowsOverlapCds : List Row :=
  [ { chrm := "chr1", kind := "gene", start := 100, stop := 500, strand := "+", geneId := "G" },
    { chrm := "chr1", kind := "CDS", start := 100, stop := 450, strand := "+", geneId := "G" },
    { chrm := "chr1", kind := "CDS", start := 420, stop := 500, strand := "+", geneId := "G" } ]

/-- A gene, a CDS ending at 150, an mRNA ending at 600, then a CDS at
[200,250]: with the mRNA absent the CDS gap would be [151,199]. -/
def rowsMrnaBetween : List Row :=
  [ { chrm := "chr1", kind := "gene", start := 100, stop := 250, strand := "+", geneId := "G" },
    { chrm := "chr1", kind := "CDS", start := 100, stop := 150, strand := "+", geneId := "G" },
    { chrm := "chr1", kind := "mRNA", start := 100, stop := 600, strand := "+", geneId := "G" },
    { chrm := "chr1", kind := "CDS", start := 200, stop := 250, strand := "+", geneId := "G" } ]

/-- The scan state right after processing the gene and first CDS of the
intron-detection example (gene forward, CDS [100,150] just emitted). -/
def stAfterCds : PState :=
  { prev_line := "CDS", prev_chrm := "chr1", prev_end := 150, trigger := false,
    cur_loc := some .cds, prev_loc := some .cds, prev_gene := some "G1",
    strand := some "+", gene := some "G1", istart := some 1, iend := some 99 }

/-- The state after then processing the CDS record [200,250] (Intron
[151,199] and the CDS both emitted). -/
def stAfterCds2 : PState :=
  { prev_line := "CDS", prev_chrm := "chr1", prev_end := 250, trigger := false,
    cur_loc := some .cds, prev_loc := some .cds, prev_gene := some "G1",
    strand := some "+", gene := some "G1", istart := some 151, iend := some 199 }

/-- The scan state right after the worked-example gene G1 (forward,
promoter [99,399] and TSS emitted, prev_end anchored at 399). -/
def stAfterGene : PState :=
  { prev_line := "gene", prev_chrm := "chr1", prev_end := 399, trigger := false,
    cur_loc := some .tss, prev_loc := some .tss, prev_gene := some "G1",
    strand := some "+", gene := some "G1", istart := some 99, iend := some 399 }

/-- The state after then processing a UTR record [400,450] (classified as
a five-prime UTR since the strand is forward and the previous label was
TSS). -/
def stAfterUtr : PState :=
  { prev_line := "UTR", prev_chrm := "chr1", prev_end := 450, trigger := false,
    cur_loc := some .utr5, prev_loc := some .utr5, prev_gene := some "G1",
    strand := some "+", gene := some "G1", istart := some 99, iend := some 399 }

/-- The state just before the mRNA record of rowsMrnaBetween: a gene and a
CDS [100,150] have been processed. -/
def stBeforeMrna : PState :=
  { prev_line := "CDS", prev_chrm := "chr1", prev_end := 150, trigger := false,
    cur_loc := some .cds, prev_loc := some .cds, prev_gene := some "G",
    strand := some "+", gene := some "G", istart := some 1, iend := some 99 }

/-- The state after then processing the mRNA record [100,600]: nothing
emitted, but prev_end now holds the end of the mRNA record. -/
def stAfterMrna : PState :=
  { prev_line := "mRNA", prev_chrm := "chr1", prev_end := 600, trigger := false,
    cur_loc := some .cds, prev_loc := some .cds, prev_gene := some "G",
    strand := some "+", gene := some "G", istart := some 1, iend := some 99 }

/-! Theorems settling the claims. -/

/-- C1: the operon decision is inverted in the code. The spec says Merge
exactly when operons are enabled and the gap is under operonDistance. On
two reverse genes 10 apart (operonDistance 60, operons on) the program
emits the TSS and Promoter of the prior gene, i.e. decides Separate; on
two reverse genes hundreds apart it emits only one Intergenic row across
the gap, i.e. decides Merge. The branch labelled in the source as
"not operon" is the one taken for close genes. -/
theorem C1_operon_decision_inverted :
    parseGFF rowsRevNear [("chr1", 10000)] 300 true 60 =
      some [ { chrm := "chr1", start := 1, stop := 99, loc := .intergenic, geneId := some "." },
             { chrm := "chr1", start := 98, stop := 99, loc := .tss, geneId := some "GA" },
             { chrm := "chr1", start := 100, stop := 129, loc := .promoter, geneId := some "GA" },
             { chrm := "chr1", start := 1, stop := 10000, loc := .intergenic, geneId := none } ] ∧
    parseGFF rowsRevFar [("chr1", 10000)] 300 true 60 =
      some [ { chrm := "chr1", start := 1, stop := 99, loc := .intergenic, geneId := some "." },
             { chrm := "chr1", start := 100, stop := 599, loc := .intergenic, geneId := some "." },
             { chrm := "chr1", start := 1, stop := 10000, loc := .intergenic, geneId := none } ] := by
  constructor <;> rfl

/-- C2 counterexample: on the worked example no emitted interval is
[601,1000] at all (the run succeeds, and every emitted interval fails that
coordinate pair), so the claimed final Intergenic [601,1000] is not
produced. -/
theorem C2_counterexample :
    (parseGFF rowsWorked sizesWorked 300 true 60).isSome = true ∧
    ((parseGFF rowsWorked sizesWorked 300 true 60).getD []).all
      (fun iv => !(iv.start == 601 && iv.stop == 1000)) = true := by
  constructor <;> rfl

/-- C2 amended: the worked example emits Intergenic [1,99], Promoter
[99,399], TSS [400,401], CDS [400,600] as claimed, but the final row is a
full-length Intergenic [1,1000] with no gene column, appended by the
end-of-input fill loop (which covers every registry chromosome), not an
Intergenic [601,1000]. -/
theorem C2_worked_example_actual :
    parseGFF rowsWorked sizesWorked 300 true 60 = some outWorked := by
  rfl

/-- C3 counterexample: in the worked example, which contains no reverse
gene and hence no head-to-head boundary, the emitted TSS [400,401] and
CDS [400,600] (and likewise the final full-length Intergenic) overlap, so
overlaps are not confined to the head-to-head tight-spacing case. -/
theorem C3_counterexample_overlap :
    ({ chrm := "chr1", start := 400, stop := 401, loc := .tss, geneId := some "G1" } : Interval)
      ∈ (parseGFF rowsWorked sizesWorked 300 true 60).getD [] ∧
    ({ chrm := "chr1", start := 400, stop := 600, loc := .cds, geneId := some "G1" } : Interval)
      ∈ (parseGFF rowsWorked sizesWorked 300 true 60).getD [] ∧
    max (400 : Int) 400 ≤ min 401 600 := by
  refine ⟨?_, ?_, ?_⟩ <;> decide

/-- C4: the end-of-input fill is emitted for every registry chromosome,
not only the untouched ones. On the worked example with a second, geneless
chromosome chr2, chr1 receives Promoter/TSS/CDS rows from its gene and
still receives the full-length Intergenic [1,1000]; chr2 receives exactly
its single Intergenic [1,500]. -/
theorem C4_blanket_fill :
    parseGFF rowsWorked [("chr1", 1000), ("chr2", 500)] 300 true 60 =
      some [ { chrm := "chr1", start := 1, stop := 99, loc := .intergenic, geneId := some "." },
             { chrm := "chr1", start := 99, stop := 399, loc := .promoter, geneId := some "G1" },
             { chrm := "chr1", start := 400, stop := 401, loc := .tss, geneId := some "G1" },
             { chrm := "chr1", start := 400, stop := 600, loc := .cds, geneId := some "G1" },
             { chrm := "chr1", start := 1, stop := 1000, loc := .intergenic, geneId := none },
             { chrm := "chr2", start := 1, stop := 500, loc := .intergenic, geneId := none } ] := by
  rfl

/-- C5 counterexample: in the tight head-to-head case the program emits an
Intergenic row [401,-152], whose end is below its start and below 1, so
degenerate spans are not always omitted and boundary containment fails. -/
theorem C5_counterexample_negative_span :
    ({ chrm := "chr1", start := 401, stop := -152, loc := .intergenic, geneId := some "." } : Interval)
      ∈ (parseGFF rowsHeadTight [("chr1", 1000)] 300 true 60).getD [] ∧
    (-152 : Int) < 401 ∧ (-152 : Int) < 1 := by
  refine ⟨?_, ?_, ?_⟩ <;> decide

/-- C6 counterexample: after a CDS ending at 450, a CDS starting at 420
(an overlap, not a gap: 450 is not strictly before 420 - 1) still makes
the program emit an Intron row [451,451]. -/
theorem C6_counterexample_overlap_intron :
    ({ chrm := "chr1", start := 451, stop := 451, loc := .intron, geneId := some "G" } : Interval)
      ∈ (parseGFF rowsOverlapCds [("chr1", 1000)] 300 true 60).getD [] ∧
    ¬ ((450 : Int) < 420 - 1) := by
  refine ⟨?_, ?_⟩ <;> decide

/-- C8 counterexample: with CDS [100,150], mRNA [100,600], CDS [200,250],
the mRNA record advances prev_end to 600, so the following CDS gets an
Intron [601,601] instead of the Intron [151,199] the mRNA-transparent
reading would give. -/
theorem C8_counterexample_prev_end :
    ({ chrm := "chr1", start := 601, stop := 601, loc := .intron, geneId := some "G" } : Interval)
      ∈ (parseGFF rowsMrnaBetween [("chr1", 1000)] 300 true 60).getD [] ∧
    ({ chrm := "chr1", start := 151, stop := 199, loc := .intron, geneId := some "G" } : Interval)
      ∉ (parseGFF rowsMrnaBetween [("chr1", 1000)] 300 true 60).getD [] := by
  refine ⟨?_, ?_⟩ <;> decide

/-- C9: the two head-to-head branches (room for both promoters or not)
append exactly the same five rows with the same coordinates and leave the
same istart, iend and cur_loc, so the space test comparing the gap with
two promoter widths has no observable effect. -/
theorem C9_head_to_head_branches_equal (prev_chrm chrm : String)
    (prev_end start promSize : Int) (prev_gene gene : String) :
    headToHeadRoomy prev_chrm chrm prev_end start promSize prev_gene gene =
      headToHeadTight prev_chrm chrm prev_end start promSize prev_gene gene ∧
    (headToHeadRoomy prev_chrm chrm prev_end start promSize prev_gene gene).out =
      [ { chrm := prev_chrm, start := prev_end, stop := prev_end + 1,
          loc := .tss, geneId := some prev_gene },
        { chrm := prev_chrm, start := prev_end + 1, stop := prev_end + 1 + promSize,
          loc := .promoter, geneId := some prev_gene },
        { chrm := chrm, start := prev_end + 1 + promSize + 1, stop := start - 1 - promSize - 1,
          loc := .intergenic, geneId := some "." },
        { chrm := chrm, start := start - 1 - promSize - 1, stop := start - 1,
          loc := .promoter, geneId := some gene },
        { chrm := prev_chrm, start := start, stop := start + 1,
          loc := .tss, geneId := some gene } ] :=
  ⟨rfl, rfl⟩

/-- C3 amended: coverage of [1, length] holds for every chromosome of the
size registry, for any input and configuration, because the end-of-input
fill appends a full-length Intergenic row for every registry chromosome
(the overlap restriction of the original claim fails, see the
counterexample). -/
theorem C3_coverage (rows : List Row) (chrmSizes : List (String × Int))
    (promSize : Int) (operons : Bool) (operonDist : Int) (c : String) (L : Int)
    (out : List Interval) (hc : (c, L) ∈ chrmSizes)
    (hrun : parseGFF rows chrmSizes promSize operons operonDist = some out)
    (pos : Int) (hlo : 1 ≤ pos) (hhi : pos ≤ L) :
    ∃ iv ∈ out, iv.chrm = c ∧ iv.start ≤ pos ∧ pos ≤ iv.stop := by
  unfold parseGFF at hrun
  cases hp : processRows chrmSizes promSize operons operonDist initState rows with
  | none => rw [hp] at hrun; cases hrun
  | some p =>
    obtain ⟨stF, o⟩ := p
    rw [hp] at hrun
    dsimp only at hrun
    injection hrun with hout
    refine ⟨{ chrm := c, start := 1, stop := L, loc := Loc.intergenic, geneId := none },
      ?_, rfl, ?_, ?_⟩
    · rw [← hout]
      exact List.mem_append_right _ (List.mem_map_of_mem _ hc)
    · show (1 : Int) ≤ pos
      omega
    · show pos ≤ L
      omega

/-- Witness for C3_coverage: on the worked example, position 500 of chr1
(length 1000) is covered by some emitted interval. -/
theorem C3_coverage_witness :
    ∃ iv ∈ outWorked, iv.chrm = "chr1" ∧ iv.start ≤ 500 ∧ 500 ≤ iv.stop :=
  C3_coverage rowsWorked sizesWorked 300 true 60 "chr1" 1000 outWorked
    (by decide) (by rfl) 500 (by decide) (by decide)

/-- C5 amended, CDS part: in the CDS branch the Intron span is clamped, so
every Intron row emitted while processing a CDS record satisfies start at
most stop (general containment fails elsewhere, see the counterexample). -/
theorem C5_cds_intron_clamped (chrmSizes : List (String × Int)) (promSize : Int)
    (operons : Bool) (operonDist : Int) (st : PState) (chrm : String)
    (start stop : Int) (sd0 gid : String) (st2 : PState) (out : List Interval)
    (h : processRow chrmSizes promSize operons operonDist st
           { chrm := chrm, kind := "CDS", start := start, stop := stop,
             strand := sd0, geneId := gid } = some (st2, out)) :
    out.all (fun iv => !(iv.loc == Loc.intron) || decide (iv.start ≤ iv.stop)) = true := by
  simp only [processRow, String.reduceEq, reduceIte, if_true] at h
  cases hpl : st.prev_loc with
  | none => rw [hpl] at h; simp at h
  | some pl =>
    cases hg : st.gene with
    | none => rw [hpl, hg] at h; simp at h
    | some g =>
      rw [hpl, hg] at h
      dsimp only at h
      by_cases hc : pl = Loc.cds ∧ st.prev_end + 1 ≠ start ∨
          pl.hasUTR = true ∧ st.prev_end + 1 ≠ start
      · rw [if_pos hc] at h
        simp only [Option.some.injEq, Prod.mk.injEq] at h
        obtain ⟨hst, hout⟩ := h
        subst hout
        simp only [List.all_cons, List.all_nil, Bool.and_true]
        simp only [beq_self_eq_true, Bool.not_true, Bool.false_or]
        rw [Bool.and_eq_true]
        constructor
        · rw [decide_eq_true_eq]
          split <;> omega
        · simp
      · rw [if_neg hc] at h
        simp only [Option.some.injEq, Prod.mk.injEq] at h
        obtain ⟨hst, hout⟩ := h
        subst hout
        simp

/-- Witness for C5_cds_intron_clamped: the CDS record [200,250] after a
CDS ending at 150 emits Intron [151,199] and the CDS row, and both pass
the check. -/
theorem C5_cds_intron_clamped_witness :
    (([ { chrm := "chr1", start := 151, stop := 199, loc := Loc.intron, geneId := some "G1" },
        { chrm := "chr1", start := 200, stop := 250, loc := Loc.cds, geneId := some "G1" } ] :
        List Interval).all
      (fun iv => !(iv.loc == Loc.intron) || decide (iv.start ≤ iv.stop))) = true :=
  C5_cds_intron_clamped [("chr1", 1000)] 300 true 60 stAfterCds "chr1" 200 250 "+" "G1"
    stAfterCds2 _ (by rfl)

/-- C6 amended: processing a CDS record emits an Intron exactly when the
previous annotated label was CDS or a UTR and prevEnd + 1 differs from the
current start (a gap or an overlap, not an adjacency); the Intron starts
at prevEnd + 1 and its end is clamped up to its start when start - 1 does
not exceed it; the CDS interval itself is always emitted. In particular
CDS records [100,150] and [200,250] give Intron [151,199] (see the
witness). -/
theorem C6_cds_intron_rule (chrmSizes : List (String × Int)) (promSize : Int)
    (operons : Bool) (operonDist : Int) (st : PState) (chrm : String)
    (start stop : Int) (sd0 gid : String) (pl : Loc) (g : String)
    (st2 : PState) (out : List Interval)
    (hpl : st.prev_loc = some pl) (hg : st.gene = some g)
    (h : processRow chrmSizes promSize operons operonDist st
           { chrm := chrm, kind := "CDS", start := start, stop := stop,
             strand := sd0, geneId := gid } = some (st2, out)) :
    out = (if (pl = Loc.cds ∨ pl.hasUTR = true) ∧ st.prev_end + 1 ≠ start then
             [{ chrm := chrm, start := st.prev_end + 1,
                stop := if start - 1 > st.prev_end + 1 then start - 1 else st.prev_end + 1,
                loc := Loc.intron, geneId := some g }]
           else []) ++
          [{ chrm := chrm, start := start, stop := stop, loc := Loc.cds, geneId := some g }] := by
  simp only [processRow, String.reduceEq, reduceIte, if_true] at h
  rw [hpl, hg] at h
  dsimp only at h
  by_cases hc : pl = Loc.cds ∧ st.prev_end + 1 ≠ start ∨
      pl.hasUTR = true ∧ st.prev_end + 1 ≠ start
  · rw [if_pos hc] at h
    simp only [Option.some.injEq, Prod.mk.injEq] at h
    obtain ⟨hst, hout⟩ := h
    subst hout
    rw [if_pos (show (pl = Loc.cds ∨ pl.hasUTR = true) ∧ st.prev_end + 1 ≠ start by tauto)]
    rfl
  · rw [if_neg hc] at h
    simp only [Option.some.injEq, Prod.mk.injEq] at h
    obtain ⟨hst, hout⟩ := h
    subst hout
    rw [if_neg (show ¬ ((pl = Loc.cds ∨ pl.hasUTR = true) ∧ st.prev_end + 1 ≠ start) by tauto)]
    rfl

/-- Witness for C6_cds_intron_rule: the claim example itself, CDS records
at [100,150] and [200,250], yields Intron [151,199] before the CDS. -/
theorem C6_cds_intron_rule_witness :
    ([ { chrm := "chr1", start := 151, stop := 199, loc := Loc.intron, geneId := some "G1" },
       { chrm := "chr1", start := 200, stop := 250, loc := Loc.cds, geneId := some "G1" } ] :
       List Interval) =
      (if (Loc.cds = Loc.cds ∨ Loc.cds.hasUTR = true) ∧ (150 : Int) + 1 ≠ 200 then
         [{ chrm := "chr1", start := (150 : Int) + 1,
            stop := if (200 : Int) - 1 > (150 : Int) + 1 then (200 : Int) - 1 else (150 : Int) + 1,
            loc := Loc.intron, geneId := some "G1" }]
       else []) ++
      [{ chrm := "chr1", start := 200, stop := 250, loc := Loc.cds, geneId := some "G1" }] :=
  C6_cds_intron_rule [("chr1", 1000)] 300 true 60 stAfterCds "chr1" 200 250 "+" "G1"
    Loc.cds "G1" stAfterCds2 _ (by rfl) (by rfl) (by rfl)

/-- C7: the UTR rows emitted for a UTR record are exactly as the claim
states, with the five-prime condition checked first: a five-prime UTR when
the strand is forward and the previous label was TSS, or the strand is
reverse and the previous label was CDS or a UTR; else a three-prime UTR
when the strand is reverse and the previous label was Intergenic or a
three-prime UTR, or the strand is forward and the previous label was CDS;
else no UTR row at all. -/
theorem C7_utr_classification (chrmSizes : List (String × Int)) (promSize : Int)
    (operons : Bool) (operonDist : Int) (st : PState) (chrm : String)
    (start stop : Int) (sd0 gid : String) (pl : Loc) (sd g : String)
    (st2 : PState) (out : List Interval)
    (hpl : st.prev_loc = some pl) (hsd : st.strand = some sd) (hg : st.gene = some g)
    (h : processRow chrmSizes promSize operons operonDist st
           { chrm := chrm, kind := "UTR", start := start, stop := stop,
             strand := sd0, geneId := gid } = some (st2, out)) :
    out.filter (fun iv => iv.loc == Loc.utr5 || iv.loc == Loc.utr3) =
      (if (sd = "+" ∧ pl = Loc.tss) ∨ (sd = "-" ∧ (pl = Loc.cds ∨ pl.hasUTR = true)) then
         [{ chrm := chrm, start := start, stop := stop, loc := Loc.utr5, geneId := some g }]
       else if (sd = "-" ∧ (pl = Loc.intergenic ∨ pl = Loc.utr3)) ∨ (sd = "+" ∧ pl = Loc.cds) then
         [{ chrm := chrm, start := start, stop := stop, loc := Loc.utr3, geneId := some g }]
       else []) := by
  simp only [processRow, String.reduceEq, reduceIte, if_true] at h
  rw [hpl, hsd, hg] at h
  dsimp only at h
  by_cases h5 : (sd = "+" ∧ pl = Loc.tss) ∨ (sd = "-" ∧ (pl = Loc.cds ∨ pl.hasUTR = true))
  · rw [if_pos h5] at h ⊢
    by_cases hI : pl = Loc.cds ∧ st.prev_end + 1 ≠ start ∨
        pl.hasUTR = true ∧ st.prev_end + 1 ≠ start
    · rw [if_pos hI] at h
      dsimp only [Option.orElse, Option.map] at h
      simp only [Option.some.injEq, Prod.mk.injEq] at h
      obtain ⟨hst, hout⟩ := h
      subst hout
      rfl
    · rw [if_neg hI] at h
      dsimp only [Option.orElse, Option.map] at h
      simp only [Option.some.injEq, Prod.mk.injEq] at h
      obtain ⟨hst, hout⟩ := h
      subst hout
      rfl
  · rw [if_neg h5] at h ⊢
    by_cases h3 : (sd = "-" ∧ (pl = Loc.intergenic ∨ pl = Loc.utr3)) ∨ (sd = "+" ∧ pl = Loc.cds)
    · rw [if_pos h3] at h ⊢
      by_cases hI : pl = Loc.cds ∧ st.prev_end + 1 ≠ start ∨
          pl.hasUTR = true ∧ st.prev_end + 1 ≠ start
      · rw [if_pos hI] at h
        dsimp only [Option.orElse, Option.map] at h
        simp only [Option.some.injEq, Prod.mk.injEq] at h
        obtain ⟨hst, hout⟩ := h
        subst hout
        rfl
      · rw [if_neg hI] at h
        dsimp only [Option.orElse, Option.map] at h
        simp only [Option.some.injEq, Prod.mk.injEq] at h
        obtain ⟨hst, hout⟩ := h
        subst hout
        rfl
    · rw [if_neg h3] at h ⊢
      by_cases hI : pl = Loc.cds ∧ st.prev_end + 1 ≠ start ∨
          pl.hasUTR = true ∧ st.prev_end + 1 ≠ start
      · rw [if_pos hI] at h
        dsimp only [Option.orElse, Option.map] at h
        simp only [Option.some.injEq, Prod.mk.injEq] at h
        obtain ⟨hst, hout⟩ := h
        subst hout
        rfl
      · rw [if_neg hI] at h
        dsimp only [Option.orElse, Option.map] at h
        cases hcl : st.cur_loc with
        | none => rw [hcl] at h; simp at h
        | some cl =>
          rw [hcl] at h
          dsimp only at h
          simp only [Option.some.injEq, Prod.mk.injEq] at h
          obtain ⟨hst, hout⟩ := h
          subst hout
          rfl

/-- Witness for C7_utr_classification: a forward UTR record right after a
gene (previous label TSS) is labelled as a five-prime UTR. -/
theorem C7_utr_classification_witness :
    ([ { chrm := "chr1", start := 400, stop := 450, loc := Loc.utr5, geneId := some "G1" } ] :
       List Interval).filter (fun iv => iv.loc == Loc.utr5 || iv.loc == Loc.utr3) =
      (if ("+" = "+" ∧ Loc.tss = Loc.tss) ∨
          ("+" = "-" ∧ (Loc.tss = Loc.cds ∨ Loc.tss.hasUTR = true)) then
         [{ chrm := "chr1", start := 400, stop := 450, loc := Loc.utr5, geneId := some "G1" }]
       else if ("+" = "-" ∧ (Loc.tss = Loc.intergenic ∨ Loc.tss = Loc.utr3)) ∨
               ("+" = "+" ∧ Loc.tss = Loc.cds) then
         [{ chrm := "chr1", start := 400, stop := 450, loc := Loc.utr3, geneId := some "G1" }]
       else []) :=
  C7_utr_classification [("chr1", 1000)] 300 true 60 stAfterGene "chr1" 400 450 "+" "G1"
    Loc.tss "+" "G1" stAfterUtr _ (by rfl) (by rfl) (by rfl) (by rfl)

/-- C8 amended: an mRNA record emits nothing and leaves the label state
(prev_loc, cur_loc) and the gene, strand, trigger, istart and iend locals
untouched, but it does advance prev_end to the end of the mRNA record
(and prev_chrm and prev_line to the values of the record), so Intron
detection on the following CDS or UTR record uses the end of the mRNA
record rather than the end of the preceding CDS, UTR or Gene record. -/
theorem C8_mrna_step (chrmSizes : List (String × Int)) (promSize : Int)
    (operons : Bool) (operonDist : Int) (st : PState) (chrm : String)
    (start stop : Int) (sd0 gid : String) (st2 : PState) (out : List Interval)
    (h : processRow chrmSizes promSize operons operonDist st
           { chrm := chrm, kind := "mRNA", start := start, stop := stop,
             strand := sd0, geneId := gid } = some (st2, out)) :
    out = [] ∧ st2.prev_loc = st.cur_loc ∧ st2.cur_loc = st.cur_loc ∧
      st2.prev_end = stop ∧ st2.prev_chrm = chrm ∧ st2.prev_line = "mRNA" ∧
      st2.prev_gene = st.gene ∧ st2.trigger = st.trigger ∧ st2.strand = st.strand ∧
      st2.gene = st.gene ∧ st2.istart = st.istart ∧ st2.iend = st.iend := by
  simp only [processRow, String.reduceEq, reduceIte, if_true] at h
  cases hcl : st.cur_loc with
  | none => rw [hcl] at h; simp at h
  | some cl =>
    cases hg : st.gene with
    | none => rw [hcl, hg] at h; simp at h
    | some g =>
      rw [hcl, hg] at h
      dsimp only at h
      simp only [Option.some.injEq, Prod.mk.injEq] at h
      obtain ⟨hst, hout⟩ := h
      subst hout
      subst hst
      exact ⟨rfl, rfl, rfl, rfl, rfl, rfl, rfl, rfl, rfl, rfl, rfl, rfl⟩

/-- Witness for C8_mrna_step: the mRNA record [100,600] of the
rowsMrnaBetween run emits nothing and moves prev_end from 150 to 600. -/
theorem C8_mrna_step_witness :
    ([] : List Interval) = [] ∧ stAfterMrna.prev_loc = stBeforeMrna.cur_loc ∧
      stAfterMrna.cur_loc = stBeforeMrna.cur_loc ∧ stAfterMrna.prev_end = 600 ∧
      stAfterMrna.prev_chrm = "chr1" ∧ stAfterMrna.prev_line = "mRNA" ∧
      stAfterMrna.prev_gene = stBeforeMrna.gene ∧
      stAfterMrna.trigger = stBeforeMrna.trigger ∧
      stAfterMrna.strand = stBeforeMrna.strand ∧
      stAfterMrna.gene = stBeforeMrna.gene ∧
      stAfterMrna.istart = stBeforeMrna.istart ∧
      stAfterMrna.iend = stBeforeMrna.iend :=
  C8_mrna_step [("chr1", 1000)] 300 true 60 stBeforeMrna "chr1" 100 600 "+" "G"
    stAfterMrna [] (by rfl)

/-- C10: a run whose first record is a forward gene with start at most 2
aborts: the new-chromosome branch emits only the TSS and assigns neither
istart nor iend, and the unconditional post-gene assignments then read
them (a NameError in the source, none in the embedding). -/
theorem C10_first_gene_low_start_aborts (chrmSizes : List (String × Int))
    (promSize operonDist : Int) (operons : Bool) (start stop : Int) (g : String)
    (h1 : start ≤ 2) (h2 : 1 ≤ promSize) :
    parseGFF [{ chrm := "chr1", kind := "gene", start := start, stop := stop,
                strand := "+", geneId := g }] chrmSizes promSize operons operonDist = none := by
  have hA : ¬ (start - 1 - promSize > 1) := by omega
  have hB : ¬ (start > 2) := by omega
  simp [parseGFF, processRows, processRow, geneStep, closePrevChrm, newChrmGene,
    initState, hA, hB, Option.orElse]

/-- Witness for C10: the concrete one-record input, gene at [2,10] with
the default promoter size 300, aborts. -/
theorem C10_first_gene_low_start_aborts_witness :
    parseGFF [{ chrm := "chr1", kind := "gene", start := 2, stop := 10,
                strand := "+", geneId := "G1" }] [("chr1", 1000)] 300 true 60 = none :=
  C10_first_gene_low_start_aborts [("chr1", 1000)] 300 60 true 2 10 "G1"
    (by decide) (by decide)

end AnnotateFromGFF
